import Mathlib

/-!
Verification of the Digital Culture Scan dashboard (`app_streamlit_dcs.py`).

The script is a linear pipeline: load an Excel sheet, normalize column
headers, derive a per-row mean (`PromedioGeneral`), filter by `Área` and
`Nivel`, aggregate (eNPS, per-dimension means, per-Área group means) and
render charts.  Below, each Python construct is shallowly embedded:

* a cell that may be missing (pandas `NaN`) is an `Option ℚ`;
* a dataframe row is the record `Row`; a dataframe is a `List Row`;
* pandas `Series.mean()` (skipping `NaN`, `NaN` on an all-missing series)
  is `pdMean`;
* `pd.read_excel` is an abstract parameter `read_excel : String → Except
  Unit RawFrame`, since the actual file I/O is external to the script.
-/

namespace DCS

/-- One row of the `Raw` sheet: the two categorical filter attributes, the
four 1–5 dimension scores and the tri-valued eNPS answer.  Any cell may be
missing (`none`, pandas `NaN`). -/
structure Row where
  area : Option String
  nivel : Option String
  agilidad : Option ℚ
  empoderamiento : Option ℚ
  mentalidadDatos : Option ℚ
  corajeInnovar : Option ℚ
  enps : Option ℚ
deriving DecidableEq, Repr

/-- pandas `Series.mean()`: the mean of the non-missing entries, `NaN`
(here `none`) when every entry is missing. -/
def pdMean (xs : List (Option ℚ)) : Option ℚ :=
  let v := xs.filterMap id
  if v.length = 0 then none else some (v.sum / (v.length : ℚ))

/-- Python `str.strip()` on the underlying character list: drop leading and
trailing whitespace. -/
def stripChars (cs : List Char) : List Char :=
  ((cs.dropWhile Char.isWhitespace).reverse.dropWhile Char.isWhitespace).reverse

/-- Python `.replace(" ", "")`: remove every space character. -/
def removeSpaces (cs : List Char) : List Char :=
  cs.filter (fun c => !(c == ' '))

/-- `c.strip().replace(" ", "")` from the loader's header normalization. -/
def stripRemove (c : String) : String :=
  String.mk (removeSpaces (stripChars c.data))

/-- The per-header normalization of `load_data` (line 27):
`c.strip().replace(" ", "") if c != "Área" and c != "Nivel" else c`. -/
def normalizeHeader (c : String) : String :=
  if c ≠ "Área" ∧ c ≠ "Nivel" then stripRemove c else c

/-- `compute_enps` (lines 40–47): promoters are the entries equal to `100`,
detractors those equal to `-100`, the total counts every non-missing entry;
the score is `(P − D) / T × 100`, or `0` when `T = 0`.  A pandas comparison
`series == 100` is `False` on `NaN`, hence the `some`-equality tests. -/
def compute_enps (series : List (Option ℚ)) : ℚ :=
  let promotores := series.countP (fun x => decide (x = some 100))
  let detractores := series.countP (fun x => decide (x = some (-100)))
  let total := series.countP (fun x => x.isSome)
  if total = 0 then 0
  else ((promotores : ℚ) - (detractores : ℚ)) / (total : ℚ) * 100

/-- The derived column (line 49):
`df[["Agilidad","Empoderamiento","MentalidadDatos","CorajeInnovar"]].mean(axis=1)`
evaluated at one row. -/
def promedioGeneral (r : Row) : Option ℚ :=
  pdMean [r.agilidad, r.empoderamiento, r.mentalidadDatos, r.corajeInnovar]

/-- Line 49 over the whole dataframe: each row paired with its
`PromedioGeneral` value. -/
def withPromedio (df : List Row) : List (Row × Option ℚ) :=
  df.map (fun r => (r, promedioGeneral r))

/-- The sidebar sentinel for `Área` ("(Todas)") — the spec's "(All)". -/
def allAreas : String := "(Todas)"

/-- The sidebar sentinel for `Nivel` ("(Todos)") — the spec's "(All)". -/
def allNiveles : String := "(Todos)"

/-- The filter block (lines 58–62): copy the dataframe, then apply the
`Área` equality mask when the selection is not the sentinel, then the
`Nivel` mask likewise.  A missing attribute never equals a selection. -/
def df_f (df : List Row) (area_sel nivel_sel : String) : List Row :=
  let d1 := if area_sel ≠ allAreas
    then df.filter (fun r => decide (r.area = some area_sel)) else df
  if nivel_sel ≠ allNiveles
    then d1.filter (fun r => decide (r.nivel = some nivel_sel)) else d1

/-- `radar_dims` (line 75): the four dimension column names. -/
def radar_dims : List String :=
  ["Agilidad", "Empoderamiento", "MentalidadDatos", "CorajeInnovar"]

/-- Column selection `df[c]` for the numeric columns used by the script;
an unknown name yields an all-missing column. -/
def getCol (df : List Row) (c : String) : List (Option ℚ) :=
  df.map (fun r =>
    if c = "Agilidad" then r.agilidad
    else if c = "Empoderamiento" then r.empoderamiento
    else if c = "MentalidadDatos" then r.mentalidadDatos
    else if c = "CorajeInnovar" then r.corajeInnovar
    else if c = "eNPS" then r.enps
    else none)

/-- `enps_global` (line 65): `compute_enps(df_f["eNPS"]) if len(df_f) else 0`. -/
def enps_global (dff : List Row) : ℚ :=
  if dff.length ≠ 0 then compute_enps (getCol dff "eNPS") else 0

/-- One entry of `vals` (line 76): `df_f[col].mean() if len(df_f) else 0`. -/
def dimVal (dff : List Row) (c : String) : Option ℚ :=
  if dff.length ≠ 0 then pdMean (getCol dff c) else some 0

/-- `vals` (line 76): the radar values, one per dimension. -/
def vals (dff : List Row) : List (Option ℚ) :=
  radar_dims.map (fun c => dimVal dff c)

/-- The sorted distinct non-missing `Área` keys of a frame — the group keys
produced by `df.groupby("Área")` (pandas sorts keys ascending and drops
missing ones). -/
def areaKeys (df : List Row) : List String :=
  ((df.filterMap (fun r => r.area)).dedup).insertionSort (fun a b => a < b)

/-- `df.groupby("Área")[radar_dims].mean()`: one record per group key with
the four per-dimension means inside the group. -/
def groupMeans (df : List Row) : List (String × List (Option ℚ)) :=
  (areaKeys df).map (fun k =>
    let g := df.filter (fun r => decide (r.area = some k))
    (k, radar_dims.map (fun c => pdMean (getCol g c))))

/-- `.melt(id_vars="Área", ...)`: the grouped means reshaped into
`(Área, Dimensión, Promedio)` triples. -/
def meltAgg (t : List (String × List (Option ℚ))) : List (String × String × Option ℚ) :=
  (t.map (fun g => (radar_dims.zip g.2).map (fun p => (g.1, p.1, p.2)))).flatten

/-- What a chart slot of the page shows: either a chart over melted cells
or the textual no-data placeholder (`st.info`). -/
inductive View where
  | chart (cells : List (String × String × Option ℚ))
  | placeholder
deriving DecidableEq, Repr

/-- `bars_df` (line 94): the per-Área means, or an empty frame when the
filtered view has no rows. -/
def bars_df (dff : List Row) : List (String × List (Option ℚ)) :=
  if dff.length ≠ 0 then groupMeans dff else []

/-- `bars_fig` (lines 95–99): `px.bar` over the melted `bars_df` — always a
chart, with no empty-input guard. -/
def barsView (dff : List Row) : View :=
  View.chart (meltAgg (bars_df dff))

/-- `hm_df` (line 108): the per-Área means for the heatmap, unguarded. -/
def hm_df (dff : List Row) : List (String × List (Option ℚ)) :=
  groupMeans dff

/-- Lines 109–117: the heatmap is drawn when `hm_df` is non-empty,
otherwise `st.info` shows the no-data message. -/
def heatmapView (dff : List Row) : View :=
  if hm_df dff ≠ [] then View.chart (meltAgg (hm_df dff))
  else View.placeholder

/-- The `Raw` sheet as returned by `pd.read_excel`: the header list and the
typed rows. -/
structure RawFrame where
  headers : List String
  rows : List Row
deriving DecidableEq, Repr

/-- `default_path` (line 21). -/
def default_path : String := "Dataset_DCS_ReidCo.xlsx"

/-- `load_data` (lines 24–28): read the `Raw` sheet from the source and
normalize every header.  `pd.read_excel` is the abstract `read_excel`
parameter; a raised pandas exception is `Except.error ()`. -/
def load_data (read_excel : String → Except Unit RawFrame) (file : String) :
    Except Unit RawFrame :=
  match read_excel file with
  | Except.error e => Except.error e
  | Except.ok raw => Except.ok { headers := raw.headers.map normalizeHeader, rows := raw.rows }

/-- What one run of the script renders: either the dashboard (KPIs and
charts over the filtered view) or — after the `except` branch (lines
35–37) — the static error message with `st.stop()`, so nothing else. -/
inductive Page where
  | dashboard (df : RawFrame) (enpsKpi : ℚ) (radar : List (Option ℚ))
      (bars : View) (heatmap : View)
  | errorHalt
deriving DecidableEq, Repr

/-- The charts a rendered page contains, if any. -/
def chartsOf : Page → Option (View × View)
  | Page.dashboard _ _ _ b h => some (b, h)
  | Page.errorHalt => none

/-- Lines 30–37 and the rest of the script as one function: load from the
uploaded source when present, else from the default path; on a load
failure show the error message and stop; otherwise filter and render. -/
def runApp (read_excel : String → Except Unit RawFrame) (uploaded : Option String)
    (area_sel nivel_sel : String) : Page :=
  match (match uploaded with
         | some up => load_data read_excel up
         | none => load_data read_excel default_path) with
  | Except.error _ => Page.errorHalt
  | Except.ok df0 =>
      let dff := df_f df0.rows area_sel nivel_sel
      Page.dashboard df0 (enps_global dff) (vals dff) (barsView dff) (heatmapView dff)

/-- Specification-side eNPS counters, by structural recursion: the triple
`(P, D, T)` of promoters, detractors and non-missing entries. -/
def enpsCounts : List (Option ℚ) → Nat × Nat × Nat
  | [] => (0, 0, 0)
  | x :: xs =>
    let r := enpsCounts xs
    (if x = some 100 then r.1 + 1 else r.1,
     if x = some (-100) then r.2.1 + 1 else r.2.1,
     if x.isSome then r.2.2 + 1 else r.2.2)

/-- The recursive counters agree with the three `countP` reductions inside
`compute_enps`. -/
theorem enpsCounts_eq (s : List (Option ℚ)) :
    enpsCounts s = (s.countP (fun x => decide (x = some 100)),
                    s.countP (fun x => decide (x = some (-100))),
                    s.countP (fun x => x.isSome)) := by
  induction s with
  | nil => rfl
  | cons x xs ih =>
    simp only [enpsCounts, ih, List.countP_cons]
    refine Prod.ext ?_ (Prod.ext ?_ ?_) <;> split_ifs <;> simp_all

/-- `P + D ≤ T` for the eNPS counters: promoters and detractors are
disjoint, and both are non-missing. -/
theorem enpsCounts_le (s : List (Option ℚ)) :
    (enpsCounts s).1 + (enpsCounts s).2.1 ≤ (enpsCounts s).2.2 := by
  induction s with
  | nil => exact Nat.le_refl 0
  | cons x xs ih =>
    rcases x with _ | v
    · simpa [enpsCounts] using ih
    · by_cases h1 : (some v : Option ℚ) = some 100
      · have h2 : (some v : Option ℚ) ≠ some (-100) := by
          rw [h1]; intro h; exact absurd (Option.some.inj h) (by norm_num)
        simp only [enpsCounts, if_pos h1, if_neg h2, Option.isSome_some, if_pos]
        omega
      · by_cases h2 : (some v : Option ℚ) = some (-100)
        · simp only [enpsCounts, if_neg h1, if_pos h2, Option.isSome_some, if_pos]
          omega
        · simp only [enpsCounts, if_neg h1, if_neg h2, Option.isSome_some, if_pos]
          omega

/-- C1: for every eNPS series, `compute_enps` returns `(P − D) / T × 100`
when `T > 0` and `0` when `T = 0`, where `P` counts entries equal to 100,
`D` those equal to −100 and `T` the non-missing entries; in particular the
series `[100, 100, -100, 0, missing]` scores 25 and an all-missing series
scores 0. -/
theorem compute_enps_formula (s : List (Option ℚ)) :
    compute_enps s =
      (if (enpsCounts s).2.2 = 0 then 0
       else (((enpsCounts s).1 : ℚ) - ((enpsCounts s).2.1 : ℚ)) / ((enpsCounts s).2.2 : ℚ) * 100) ∧
    compute_enps [some 100, some 100, some (-100), some 0, none] = 25 ∧
    compute_enps [none, none, none] = 0 := by
  refine ⟨?_, ?_, ?_⟩
  · rw [enpsCounts_eq]; rfl
  · simp [compute_enps, List.countP, List.countP.go]
    norm_num
  · simp [compute_enps, List.countP, List.countP.go]

/-- C9: the eNPS score always lies in `[-100, 100]`: every non-missing
entry is counted in `T`, but only the entries equal to 100 (resp. −100)
are counted in `P` (resp. `D`), so `P + D ≤ T` and the quotient is in
`[-1, 1]`. -/
theorem compute_enps_bounds (s : List (Option ℚ)) :
    (enpsCounts s).1 + (enpsCounts s).2.1 ≤ (enpsCounts s).2.2 ∧
    -100 ≤ compute_enps s ∧ compute_enps s ≤ 100 := by
  refine ⟨enpsCounts_le s, ?_⟩
  have hPD := enpsCounts_le s
  rw [enpsCounts_eq] at hPD
  unfold compute_enps
  set p := s.countP (fun x => decide (x = some 100)) with hp
  set d := s.countP (fun x => decide (x = some (-100))) with hd
  set t := s.countP (fun x => x.isSome) with ht
  by_cases h0 : t = 0
  · rw [if_pos h0]; norm_num
  · rw [if_neg h0]
    have ht0 : (0 : ℚ) < (t : ℚ) := by
      exact_mod_cast Nat.pos_of_ne_zero h0
    have hpt : (p : ℚ) ≤ (t : ℚ) := by exact_mod_cast Nat.le_trans (Nat.le_add_right p d) hPD
    have hdt : (d : ℚ) ≤ (t : ℚ) := by exact_mod_cast Nat.le_trans (Nat.le_add_left d p) hPD
    have h1 : (-1 : ℚ) ≤ ((p : ℚ) - (d : ℚ)) / (t : ℚ) := by
      rw [le_div_iff₀ ht0]
      have hq : (0 : ℚ) ≤ (p : ℚ) := by positivity
      linarith
    have h2 : ((p : ℚ) - (d : ℚ)) / (t : ℚ) ≤ 1 := by
      rw [div_le_one ht0]
      have hq : (0 : ℚ) ≤ (d : ℚ) := by positivity
      linarith
    constructor
    · nlinarith
    · nlinarith

/-- C2: `PromedioGeneral` is the mean of the row's non-missing dimension
values — missing values are excluded from numerator and denominator — and
is itself missing (never `0`) exactly when all four dimensions are
missing; the row `[5, 3, missing, 1]` yields `3`. -/
theorem promedioGeneral_spec :
    (∀ r : Row, promedioGeneral r =
      (if ([r.agilidad, r.empoderamiento, r.mentalidadDatos, r.corajeInnovar].filterMap id) = []
       then none
       else some (([r.agilidad, r.empoderamiento, r.mentalidadDatos, r.corajeInnovar].filterMap id).sum /
          (([r.agilidad, r.empoderamiento, r.mentalidadDatos, r.corajeInnovar].filterMap id).length : ℚ)))) ∧
    (∀ r : Row, (promedioGeneral r = none ↔
      r.agilidad = none ∧ r.empoderamiento = none ∧
      r.mentalidadDatos = none ∧ r.corajeInnovar = none)) ∧
    promedioGeneral ⟨none, none, some 5, some 3, none, some 1, none⟩ = some 3 ∧
    promedioGeneral ⟨none, none, none, none, none, none, none⟩ = none ∧
    promedioGeneral ⟨none, none, none, none, none, none, none⟩ ≠ some 0 ∧
    (∀ df : List Row, withPromedio df = df.map (fun r => (r, promedioGeneral r))) := by
  refine ⟨?_, ?_, ?_, ?_, ?_, fun _ => rfl⟩
  · intro r
    simp only [promedioGeneral, pdMean, List.length_eq_zero]
  · intro r
    rcases r with ⟨a, n, x1, x2, x3, x4, e⟩
    cases x1 <;> cases x2 <;> cases x3 <;> cases x4 <;>
      simp [promedioGeneral, pdMean, List.filterMap]
  · simp [promedioGeneral, pdMean, List.filterMap]
    norm_num
  · simp [promedioGeneral, pdMean, List.filterMap]
  · simp [promedioGeneral, pdMean, List.filterMap]

/-- C3 counterexample: the header `" Área "` (the attribute name with
surrounding whitespace) is not left unchanged by the normalization — the
code compares the raw header against `"Área"` before stripping, so a
whitespace-padded `" Área "` falls into the normalized branch and becomes
`"Área"`. -/
theorem normalizeHeader_area_whitespace :
    normalizeHeader " Área " = "Área" ∧ normalizeHeader " Área " ≠ " Área " := by
  decide

/-- C3 amended: headers exactly equal to `"Área"` or `"Nivel"` are
preserved; every other header — including `"Área"`/`"Nivel"` padded with
whitespace — is stripped of surrounding whitespace and its internal
spaces removed, so `" My Col "` becomes `"MyCol"` and `" Área "` becomes
`"Área"`. -/
theorem normalizeHeader_amended (c : String) (h : ¬(c = "Área" ∨ c = "Nivel")) :
    normalizeHeader c = stripRemove c ∧
    normalizeHeader "Área" = "Área" ∧ normalizeHeader "Nivel" = "Nivel" ∧
    normalizeHeader " My Col " = "MyCol" ∧ normalizeHeader " Área " = "Área" := by
  push_neg at h
  refine ⟨?_, by decide, by decide, by decide, by decide⟩
  rw [normalizeHeader, if_pos h]

/-- Concrete run of the amended C3 statement on the header `" My Col "`. -/
theorem normalizeHeader_amended_witness :
    ¬((" My Col " : String) = "Área" ∨ (" My Col " : String) = "Nivel") ∧
    (normalizeHeader " My Col " = stripRemove " My Col " ∧
     normalizeHeader "Área" = "Área" ∧ normalizeHeader "Nivel" = "Nivel" ∧
     normalizeHeader " My Col " = "MyCol" ∧ normalizeHeader " Área " = "Área") := by
  have h : ¬((" My Col " : String) = "Área" ∨ (" My Col " : String) = "Nivel") := by decide
  exact ⟨h, normalizeHeader_amended " My Col " h⟩

/-- C6: selecting the two "(All)" sentinels leaves the dataframe untouched:
both masks are skipped, so all rows survive in their original order. -/
theorem df_f_identity (df : List Row) : df_f df allAreas allNiveles = df := by
  simp [df_f]

/-- C5: with both filters active, the sequential masking of lines 58–62
returns exactly the rows whose `Área` and `Nivel` both equal the selected
values, as a subsequence of the original dataframe. -/
theorem df_f_both_active (df : List Row) (a n : String)
    (ha : a ≠ allAreas) (hn : n ≠ allNiveles) :
    df_f df a n = df.filter (fun r => decide (r.area = some a ∧ r.nivel = some n)) ∧
    (df_f df a n).Sublist df := by
  have h : df_f df a n =
      (df.filter (fun r => decide (r.area = some a))).filter
        (fun r => decide (r.nivel = some n)) := by
    simp [df_f, ha, hn]
  rw [h, List.filter_filter]
  constructor
  · refine List.filter_congr ?_
    intro r _
    simp [Bool.decide_and, Bool.and_comm]
  · exact List.filter_sublist _

/-- A sample respondent in area `A`, level `N`. -/
def rowAN : Row := ⟨some "A", some "N", some 4, some 4, some 4, some 4, some 100⟩

/-- A sample respondent in area `B`. -/
def rowB : Row := ⟨some "B", some "N", some 2, none, some 3, some 1, some (-100)⟩

/-- A sample respondent whose `Agilidad` answer is missing. -/
def rowNoAg : Row := ⟨some "A", some "N", none, some 2, some 3, some 4, some 0⟩

/-- Concrete run of C5: filtering `[rowAN, rowB]` by `Área = "A"` and
`Nivel = "N"` keeps exactly `rowAN`. -/
theorem df_f_both_active_witness :
    (("A" : String) ≠ allAreas ∧ ("N" : String) ≠ allNiveles) ∧
    (df_f [rowAN, rowB] "A" "N" =
       [rowAN, rowB].filter (fun r => decide (r.area = some "A" ∧ r.nivel = some "N")) ∧
     (df_f [rowAN, rowB] "A" "N").Sublist [rowAN, rowB]) := by
  have ha : ("A" : String) ≠ allAreas := by decide
  have hn : ("N" : String) ≠ allNiveles := by decide
  exact ⟨⟨ha, hn⟩, df_f_both_active [rowAN, rowB] "A" "N" ha hn⟩

/-- C4: when the filtered view is empty, the pipeline still runs: the eNPS
KPI is `0`, all four displayed dimension means are `0` (not missing), the
per-Área grouping has zero groups and the heatmap slot shows the no-data
placeholder. -/
theorem empty_filter_defaults (df : List Row) (a n : String)
    (h : df_f df a n = []) :
    enps_global (df_f df a n) = 0 ∧
    vals (df_f df a n) = [some 0, some 0, some 0, some 0] ∧
    groupMeans (df_f df a n) = [] ∧
    heatmapView (df_f df a n) = View.placeholder := by
  rw [h]
  refine ⟨by simp [enps_global], by simp [vals, dimVal, radar_dims], rfl, rfl⟩

/-- Concrete run of C4: filtering the one-row dataframe `[rowB]` by
`Área = "A"` matches no rows, and every aggregate falls back safely. -/
theorem empty_filter_defaults_witness :
    df_f [rowB] "A" allNiveles = [] ∧
    (enps_global (df_f [rowB] "A" allNiveles) = 0 ∧
     vals (df_f [rowB] "A" allNiveles) = [some 0, some 0, some 0, some 0] ∧
     groupMeans (df_f [rowB] "A" allNiveles) = [] ∧
     heatmapView (df_f [rowB] "A" allNiveles) = View.placeholder) := by
  have h : df_f [rowB] "A" allNiveles = [] := by decide
  exact ⟨h, empty_filter_defaults [rowB] "A" allNiveles h⟩

/-- C8 counterexample: on an empty filtered view the bar chart is still a
chart — `px.bar` over the empty melted frame — not the no-data
placeholder that the heatmap branch shows. -/
theorem barsView_empty_counterexample :
    barsView ([] : List Row) = View.chart [] ∧
    barsView ([] : List Row) ≠ View.placeholder := by
  decide

/-- C8 amended: the bar chart never renders a placeholder; on an empty
filtered view it is an empty chart (zero bars), while the heatmap — the
only guarded chart — shows the placeholder. -/
theorem barsView_amended :
    (∀ dff : List Row, barsView dff ≠ View.placeholder) ∧
    barsView ([] : List Row) = View.chart [] ∧
    heatmapView ([] : List Row) = View.placeholder := by
  refine ⟨fun dff => by simp [barsView], by decide, by decide⟩

/-- C10: in a non-empty filtered view, a dimension column with no
non-missing value displays a missing mean (`none`), not `0` — the `0`
default only guards the zero-row case. -/
theorem dimVal_all_missing (dff : List Row) (c : String)
    (h1 : dff.length ≠ 0) (h2 : (getCol dff c).filterMap id = []) :
    dimVal dff c = none ∧ dimVal dff c ≠ some 0 ∧
    vals dff = radar_dims.map (fun d => dimVal dff d) := by
  have hnone : dimVal dff c = none := by
    simp [dimVal, h1, pdMean, h2]
  exact ⟨hnone, by rw [hnone]; simp, rfl⟩

/-- Concrete run of C10: one row with a missing `Agilidad` answer — the
radar value for `Agilidad` is missing, not `0`. -/
theorem dimVal_all_missing_witness :
    ([rowNoAg].length ≠ 0 ∧ (getCol [rowNoAg] "Agilidad").filterMap id = []) ∧
    (dimVal [rowNoAg] "Agilidad" = none ∧ dimVal [rowNoAg] "Agilidad" ≠ some 0 ∧
     vals [rowNoAg] = radar_dims.map (fun d => dimVal [rowNoAg] d)) := by
  have h1 : ([rowNoAg] : List Row).length ≠ 0 := by decide
  have h2 : (getCol [rowNoAg] "Agilidad").filterMap id = [] := by decide
  exact ⟨⟨h1, h2⟩, dimVal_all_missing [rowNoAg] "Agilidad" h1 h2⟩

/-- C7: when the chosen source cannot be read, the run renders the
error-halt page and nothing else — no charts at all; and the uploaded
source, when present, is the one read: any reader agreeing with `re` on
the uploaded source (whatever it does on the default path) produces the
same page, so the default path is never attempted. -/
theorem runApp_load_error (re re' : String → Except Unit RawFrame)
    (upl : Option String) (u a n : String)
    (hfail : re (upl.getD default_path) = Except.error ())
    (hagree : re' u = re u) :
    runApp re upl a n = Page.errorHalt ∧
    chartsOf (runApp re upl a n) = none ∧
    (upl = some u → runApp re' upl a n = runApp re upl a n) := by
  cases upl with
  | none =>
    simp only [Option.getD] at hfail
    refine ⟨?_, ?_, ?_⟩
    · simp [runApp, load_data, hfail]
    · simp [runApp, load_data, hfail, chartsOf]
    · intro h; exact absurd h (by simp)
  | some up =>
    simp only [Option.getD] at hfail
    refine ⟨?_, ?_, ?_⟩
    · simp [runApp, load_data, hfail]
    · simp [runApp, load_data, hfail, chartsOf]
    · intro h
      have hu : up = u := Option.some.inj h
      subst hu
      simp [runApp, load_data, hfail, hagree]

/-- A reader that fails on every source. -/
def readFailing : String → Except Unit RawFrame := fun _ => Except.error ()

/-- A reader that fails on the uploaded source `"up"` but would succeed on
any other path, in particular on the default path. -/
def readFailingUp : String → Except Unit RawFrame := fun s =>
  if s = "up" then Except.error () else Except.ok ⟨[], []⟩

/-- Concrete run of C7: with an upload `"up"` whose read fails, the page
is the error halt with no charts, even under a reader that would succeed
on the default path. -/
theorem runApp_load_error_witness :
    (readFailing ((some "up").getD default_path) = Except.error () ∧
     readFailingUp "up" = readFailing "up") ∧
    (runApp readFailing (some "up") allAreas allNiveles = Page.errorHalt ∧
     chartsOf (runApp readFailing (some "up") allAreas allNiveles) = none ∧
     (some "up" = some "up" →
       runApp readFailingUp (some "up") allAreas allNiveles =
       runApp readFailing (some "up") allAreas allNiveles)) := by
  have hfail : readFailing ((some "up").getD default_path) = Except.error () := rfl
  have hagree : readFailingUp "up" = readFailing "up" := rfl
  exact ⟨⟨hfail, hagree⟩,
    runApp_load_error readFailing readFailingUp (some "up") "up" allAreas allNiveles hfail hagree⟩

end DCS
